import Mathlib

/-!
# FinGuardAI front end: a shallow embedding of the React components

The components under `frontend/src/components` are embedded as pure functions
over a model of JavaScript values.

* `InvoiceProcessor.handleFileUpload` becomes the list of state-setter calls it
  issues for a given outcome of the request, applied to the triple
  `(loading, error, results)`.
* `InvoiceResults` and `RiskAssessment` become functions from the received
  value to the content they put on screen, returning `none` when evaluating the
  component throws.
* `FileUpload.onDrop` becomes a function of the accepted files and of the
  effect of the `onUpload` callback.
* Two uploads in flight are the same setter calls, each upload making its
  settling calls in one uninterrupted continuation.

Finite numbers are idealised as exact rationals: rounding, overflow and signed
zero of IEEE doubles are outside the model. What the JavaScript platform
provides and the repository does not define (number formatting, string to
number conversion, the text of engine errors, `Intl.NumberFormat`) is a
parameter, `Host`.
-/

namespace FinGuard

/-! ## JavaScript values -/

/-- JavaScript values that reach the components: the JSON values produced by
`response.json()`, `undefined` (what reading an absent property gives) and
`nan` (a numeric result that is not a number). -/
inductive JSValue where
  | undefined
  | null
  | bool (b : Bool)
  | number (q : ℚ)
  | nan
  | string (s : String)
  | array (items : List JSValue)
  | object (fields : List (String × JSValue))

namespace JSValue

instance : Inhabited JSValue := ⟨JSValue.undefined⟩

/-- ToBoolean: `undefined`, `null`, `false`, `0`, `NaN` and the empty string are
falsy, every other value (every array and object included) is truthy. -/
def truthy : JSValue → Bool
  | .undefined => false
  | .null => false
  | .bool b => b
  | .number q => decide (q ≠ 0)
  | .nan => false
  | .string s => decide (s ≠ "")
  | .array _ => true
  | .object _ => true

/-- Whether `v` is `undefined` or `null`. -/
def nullish : JSValue → Bool
  | .undefined => true
  | .null => true
  | _ => false

/-- The operator `a || b`. -/
def or (a b : JSValue) : JSValue := if a.truthy then a else b

/-- The operator `a && b` (both operands already evaluated). -/
def and (a b : JSValue) : JSValue := if a.truthy then b else a

/-- The operator `typeof v`. -/
def typeof : JSValue → String
  | .undefined => "undefined"
  | .null => "object"
  | .bool _ => "boolean"
  | .number _ => "number"
  | .nan => "number"
  | .string _ => "string"
  | .array _ => "object"
  | .object _ => "object"

/-- Whether `v` is an object with an own property `key`
(`Object.hasOwn(v, key)`): the field is present in the JSON text. -/
def has (v : JSValue) (key : String) : Bool :=
  match v with
  | .object fields => (fields.lookup key).isSome
  | _ => false

/-- Own property `key` of a parsed JSON object, `undefined` when the object has
no such key. -/
def ownField (fields : List (String × JSValue)) (key : String) : JSValue :=
  (fields.lookup key).getD .undefined

/-- The property read `v.key`, for the keys the components read (`success`,
`data`, `error`, `invoice_data`, `line_items`, `name`, ...; none of them is
`length`, an index or a prototype member). Reading a property of `undefined`
or `null` throws a TypeError: `none`. A primitive or an array has no such
property: `undefined`. -/
def getProp? (v : JSValue) (key : String) : Option JSValue :=
  match v with
  | .undefined => none
  | .null => none
  | .object fields => some (ownField fields key)
  | _ => some .undefined

/-- The property read that cannot throw, used where the receiver is known not
to be `undefined` or `null`, and for `v?.key`: optional chaining gives
`undefined` on `undefined` and `null`. -/
def field (v : JSValue) (key : String) : JSValue :=
  (v.getProp? key).getD .undefined

end JSValue

open JSValue

/-- What the JavaScript platform provides to the components. -/
structure Host where
  /-- Number::toString of a finite number. -/
  numberToString : ℚ → String
  /-- StringToNumber: a `number` or `nan`. -/
  stringToNumber : String → JSValue
  /-- The message of the TypeError thrown by reading property `key` of
  `undefined` or `null`. -/
  readErrorMessage : JSValue → String → String
  /-- The method `format` of
  `new Intl.NumberFormat('en-IN', {style: 'currency', currency: 'INR', minimumFractionDigits: 2})`. -/
  formatINR : JSValue → String

mutual
/-- ToString. An array is its elements joined by commas, `undefined` and `null`
elements giving the empty string; a plain object is `[object Object]` (an
object whose JSON text has a key `toString` or `valueOf` is outside the
model). -/
def toStringJS (h : Host) : JSValue → String
  | .undefined => "undefined"
  | .null => "null"
  | .bool b => if b then "true" else "false"
  | .number q => h.numberToString q
  | .nan => "NaN"
  | .string s => s
  | .array items => joinJS h items
  | .object _ => "[object Object]"
/-- `Array.prototype.join` with the default separator. -/
def joinJS (h : Host) : List JSValue → String
  | [] => ""
  | [x] => elementJS h x
  | x :: y :: rest => elementJS h x ++ "," ++ joinJS h (y :: rest)
/-- The text of one element in a join. -/
def elementJS (h : Host) : JSValue → String
  | .undefined => ""
  | .null => ""
  | v => toStringJS h v
end

/-- ToNumber, as a `number` or `nan`. -/
def toNumberJS (h : Host) : JSValue → JSValue
  | .undefined => .nan
  | .null => .number 0
  | .bool b => .number (if b then 1 else 0)
  | .number q => .number q
  | .nan => .nan
  | .string s =>
    match h.stringToNumber s with
    | .number q => .number q
    | _ => .nan
  | v =>
    match h.stringToNumber (toStringJS h v) with
    | .number q => .number q
    | _ => .nan

/-- The operator `a * b`. -/
def mulJS (h : Host) (a b : JSValue) : JSValue :=
  match toNumberJS h a, toNumberJS h b with
  | .number x, .number y => .number (x * y)
  | _, _ => .nan

/-- A concrete host on which the model is evaluated at examples. Integers are
printed in decimal and integer strings are read back; the fields play no part
in the properties proved below, which hold for every host. -/
def demoHost : Host where
  numberToString := fun q =>
    if q.den = 1 then toString q.num else toString q.num ++ "/" ++ toString q.den
  stringToNumber := fun s =>
    match s.toInt? with
    | some i => .number i
    | none => if s = "" then .number 0 else .nan
  readErrorMessage := fun v key =>
    "Cannot read properties of " ++ (if v.typeof = "object" then "null" else "undefined")
      ++ " (reading " ++ key ++ ")"
  formatINR := fun v =>
    match v with
    | .number q => "INR " ++ toString q.num ++ "/" ++ toString q.den
    | _ => "INR NaN"

/-! ## InvoiceProcessor: the orchestrator -/

/-- A thrown error, as far as `handleFileUpload` looks at it: the catch block
reads only `err.message`. -/
structure JSError where
  message : JSValue

/-- The expression `new Error(message)`: the message is converted with
ToString unless it is `undefined`. -/
def newError (h : Host) (message : JSValue) : JSError :=
  match message with
  | .undefined => ⟨.string ""⟩
  | m => ⟨.string (toStringJS h m)⟩

/-- A property read inside the try block: the TypeError of a read from
`undefined` or `null` is thrown with the message of the engine. -/
def readProp (h : Host) (v : JSValue) (key : String) : Except JSError JSValue :=
  match v.getProp? key with
  | some x => .ok x
  | none => .error ⟨.string (h.readErrorMessage v key)⟩

/-- What the backend call does: `fetch` rejects, or it resolves with a status
and `response.json()` rejects, or resolves with the parsed body. -/
inductive FetchOutcome where
  | fetchRejected (err : JSError)
  | jsonRejected (status : Nat) (err : JSError)
  | parsed (status : Nat) (result : JSValue)

/-- The try block of `handleFileUpload` (lines 48-72): the value passed to
`setResults`, or the error that reaches the catch block. -/
def tryBlock (h : Host) : FetchOutcome → Except JSError JSValue
  | .fetchRejected err => .error err
  | .jsonRejected _ err => .error err
  | .parsed status result => do
    -- response.status === 200 && result.success
    let succeeded ← if status = 200 then
        (do let s ← readProp h result "success"; pure s.truthy)
      else pure false
    if succeeded then
      let data ← readProp h result "data"
      -- data && data.invoice_data
      let present ← if data.truthy then
          (do let inv ← readProp h data "invoice_data"; pure inv.truthy)
        else pure false
      if present then
        pure data
      else
        throw (newError h (.string "Invalid response: missing invoice data"))
    else
      let e ← readProp h result "error"
      throw (newError h (e.or (.string "Failed to process invoice")))

/-- The three pieces of state of `InvoiceProcessor` (lines 38-40). -/
structure ViewState where
  loading : Bool
  error : JSValue
  results : JSValue

/-- The state of `useState(false)`, `useState(null)`, `useState(null)`. -/
def initialState : ViewState := ⟨false, .null, .null⟩

/-- One call of a state setter. -/
inductive SetCall where
  | setLoading (b : Bool)
  | setError (v : JSValue)
  | setResults (v : JSValue)

/-- The state after one setter call. -/
def ViewState.apply (s : ViewState) : SetCall → ViewState
  | .setLoading b => { s with loading := b }
  | .setError v => { s with error := v }
  | .setResults v => { s with results := v }

/-- The setter calls made before the request is sent (lines 44-46). -/
def openingCalls : List SetCall :=
  [.setLoading true, .setError .null, .setResults .null]

/-- The setter calls made once the request has settled: `setResults(data)`
(line 66) or `setError(err.message)` (line 75), then `setLoading(false)`
(line 77). -/
def settlingCalls (h : Host) (o : FetchOutcome) : List SetCall :=
  (match tryBlock h o with
    | .ok data => [.setResults data]
    | .error err => [.setError err.message]) ++ [.setLoading false]

/-- Every setter call of one `handleFileUpload`, in order. -/
def handleFileUploadCalls (h : Host) (o : FetchOutcome) : List SetCall :=
  openingCalls ++ settlingCalls h o

/-- The state once `handleFileUpload` has settled, started in state `s`. -/
def handleFileUpload (h : Host) (s : ViewState) (o : FetchOutcome) : ViewState :=
  (handleFileUploadCalls h o).foldl ViewState.apply s

/-- The states an upload goes through, one per setter call, the starting state
first. -/
def uploadTrace (h : Host) (s : ViewState) (o : FetchOutcome) : List ViewState :=
  (handleFileUploadCalls h o).scanl ViewState.apply s

/-- The state in which the component waits for the request: the opening calls
are made in one event handler, before the first `await`. -/
def pendingState (s : ViewState) : ViewState :=
  openingCalls.foldl ViewState.apply s

/-- States between uploads: the initial state, and the state each upload
settles in when it starts from such a state. -/
inductive Settled (h : Host) : ViewState → Prop where
  | init : Settled h initialState
  | upload {s : ViewState} (o : FetchOutcome) : Settled h s → Settled h (handleFileUpload h s o)

/-- States reached at some setter call of some upload, uploads being made one
after the other from the initial state. -/
def Reachable (h : Host) (s : ViewState) : Prop :=
  ∃ s₀ o, Settled h s₀ ∧ s ∈ uploadTrace h s₀ o

/-- How many of `loading`, `error`, `results` are truthy. -/
def truthyCount (s : ViewState) : Nat :=
  (if s.loading then 1 else 0) + (if s.error.truthy then 1 else 0)
    + (if s.results.truthy then 1 else 0)

/-- The guard `loading && (...)` of the progress indicator (line 154). -/
def showsSpinner (s : ViewState) : Bool := s.loading

/-- The guard `error && (...)` of the error banner (line 170). -/
def showsBanner (s : ViewState) : Bool := s.error.truthy

/-- The guard `results && (...)` of the Results View and the Risk View
(line 182). -/
def showsResults (s : ViewState) : Bool := s.results.truthy

/-! ## InvoiceResults: the Results View -/

/-- The function `formatCurrency` (lines 30-36): the formatter is applied to
`amount || 0`. -/
def formatCurrency (h : Host) (amount : JSValue) : String :=
  h.formatINR (amount.or (.number 0))

/-- The constant `lineItems` (line 39):
`Array.isArray(data.line_items) ? data.line_items : []`. -/
def lineItems (data : JSValue) : Option (List JSValue) := do
  let li ← data.getProp? "line_items"
  match li with
  | .array items => pure items
  | _ => pure []

/-- The argument of `formatCurrency` in the Amount column (line 258):
`(item.price || 0) * (item.quantity || 1)`. -/
def lineAmount (h : Host) (item : JSValue) : Option JSValue := do
  let price ← item.getProp? "price"
  let quantity ← item.getProp? "quantity"
  pure (mulJS h (price.or (.number 0)) (quantity.or (.number 1)))

/-- The four cells of a line-item row (lines 255-258). -/
structure ItemRow where
  name : JSValue
  quantity : JSValue
  unitPrice : String
  amount : String

/-- One row of the `lineItems.map` (lines 245-259). -/
def itemRow (h : Host) (item : JSValue) : Option ItemRow := do
  let name ← item.getProp? "name"
  let quantity ← item.getProp? "quantity"
  let price ← item.getProp? "price"
  let amount ← lineAmount h item
  pure {
    name := name.or (.string "Unknown Item")
    quantity := quantity.or (.number 1)
    unitPrice := formatCurrency h price
    amount := formatCurrency h amount }

/-- The rows of `lineItems.map(...)`: the map throws at the first item whose
row throws. -/
def itemRows (h : Host) : List JSValue → Option (List ItemRow)
  | [] => some []
  | item :: rest => do
    let r ← itemRow h item
    let rs ← itemRows h rest
    pure (r :: rs)

/-- A row of the table body: a line-item row, or the Total row (lines 260-288). -/
inductive BodyRow where
  | item (r : ItemRow)
  | total (amount : String)

/-- What the Results View shows for a record: the four header cards (lines
80-168) and the table body (lines 244-289). -/
structure InvoiceDetails where
  invoiceNumber : JSValue
  date : JSValue
  vendor : JSValue
  totalAmount : String
  body : List BodyRow

/-- The output of `InvoiceResults`: the message of the defensive check (lines
21-28), or the details. -/
inductive InvoiceView where
  | noData
  | details (d : InvoiceDetails)

/-- The component `InvoiceResults`; `none` when evaluating it throws. -/
def InvoiceResults (h : Host) (data : JSValue) : Option InvoiceView :=
  if !data.truthy then
    some .noData
  else do
    let items ← lineItems data
    let invoiceNumber ← data.getProp? "invoice_number"
    let date ← data.getProp? "date"
    let vendor ← data.getProp? "vendor"
    let total ← data.getProp? "total_amount"
    let rows ← itemRows h items
    pure (.details {
      invoiceNumber := invoiceNumber.or (.string "N/A")
      date := date.or (.string "N/A")
      vendor := vendor.or (.string "N/A")
      totalAmount := formatCurrency h total
      body := rows.map BodyRow.item ++ [BodyRow.total (formatCurrency h total)] })

/-! ## RiskAssessment: the Risk View -/

/-- The method `toLowerCase` of a string, on the letters A to Z. Other
characters are kept: no character outside A to Z lower-cases to a letter of
`high`, `medium` or `low`, so the comparisons of the switch are the same. -/
def toLowerCase (s : String) : String := ⟨s.data.map Char.toLower⟩

/-- The method `toUpperCase` of a string, on the letters a to z. -/
def toUpperCase (s : String) : String := ⟨s.data.map Char.toUpper⟩

/-- The call `v.toLowerCase()`: only a string has the method, on any other
value the call throws a TypeError (`none`). -/
def callToLowerCase : JSValue → Option String
  | .string s => some (toLowerCase s)
  | _ => none

/-- The call `v.toUpperCase()`. -/
def callToUpperCase : JSValue → Option String
  | .string s => some (toUpperCase s)
  | _ => none

/-- The function `getRiskIcon` (lines 20-32), as the name of the icon. -/
def getRiskIcon (level : JSValue) : Option String := do
  let riskLevel ← callToLowerCase (level.or (.string "low"))
  pure (if riskLevel = "high" then "ErrorIcon"
    else if riskLevel = "medium" then "WarningIcon"
    else "CheckCircleIcon")

/-- The function `getRiskColor` (lines 34-46). -/
def getRiskColor (level : JSValue) : Option String := do
  let riskLevel ← callToLowerCase (level.or (.string "low"))
  pure (if riskLevel = "high" then "error"
    else if riskLevel = "medium" then "warning"
    else "success")

/-- The value of `typeof finding === 'object' && finding.details && (...)`
(lines 197-207): the Typography element with the details as its child, or
the falsy value the conjunction stopped at. -/
inductive DetailsSlot where
  | typography (child : JSValue)
  | value (v : JSValue)

/-- The expression of lines 197-207. -/
def detailsSlot (finding : JSValue) : Option DetailsSlot :=
  if finding.typeof = "object" then do
    let details ← finding.getProp? "details"
    if details.truthy then pure (.typography details) else pure (.value details)
  else
    pure (.value (.bool false))

/-- The expression `typeof finding === 'string' ? finding : finding.description`
(line 174). -/
def primaryText (finding : JSValue) : Option JSValue :=
  if finding.typeof = "string" then some finding else finding.getProp? "description"

/-- One entry of the findings list (lines 141-212). -/
structure FindingEntry where
  icon : String
  primary : JSValue
  chipLabel : String
  chipColor : String
  details : DetailsSlot

/-- One entry of `findings.map`. -/
def findingEntry (riskLevel finding : JSValue) : Option FindingEntry := do
  let icon ← getRiskIcon riskLevel
  let primary ← primaryText finding
  let chipLabel ← callToUpperCase riskLevel
  let chipColor ← getRiskColor riskLevel
  let details ← detailsSlot finding
  pure { icon := icon, primary := primary, chipLabel := chipLabel,
         chipColor := chipColor, details := details }

/-- The entries of `findings.map(...)`. -/
def findingEntries (riskLevel : JSValue) : List JSValue → Option (List FindingEntry)
  | [] => some []
  | finding :: rest => do
    let e ← findingEntry riskLevel finding
    let es ← findingEntries riskLevel rest
    pure (e :: es)

/-- The call `findings.map(...)`: only an array has the method. -/
def mapFindings (riskLevel : JSValue) : JSValue → Option (List FindingEntry)
  | .array items => findingEntries riskLevel items
  | _ => none

/-- What the Risk View shows: the chip of the overall level (lines 88-98), the
number whose `toFixed(1)` is the confidence (line 123) and the findings list. -/
structure RiskView where
  chipLabel : String
  chipColor : String
  chipIcon : String
  confidence : JSValue
  entries : List FindingEntry

/-- The component `RiskAssessment`; `none` when evaluating it throws. -/
def RiskAssessment (h : Host) (assessment : JSValue) : Option RiskView := do
  let riskLevel := (assessment.field "risk_level").or (.string "low")
  let confidenceScore := (assessment.field "confidence_score").or (.number 0)
  let findings := (assessment.field "findings").or (.array [])
  let chipLabel ← callToUpperCase riskLevel
  let chipColor ← getRiskColor riskLevel
  let chipIcon ← getRiskIcon riskLevel
  let entries ← mapFindings riskLevel findings
  pure { chipLabel := chipLabel, chipColor := chipColor, chipIcon := chipIcon,
         confidence := mulJS h confidenceScore (.number 100), entries := entries }

/-! ## The results block of InvoiceProcessor -/

/-- What the `results && (...)` block mounts (lines 182-193): `InvoiceResults`
on `results.invoice_data` and `RiskAssessment` on `results.risk_assessment`,
each inside its own error boundary (`none` inside the pair: the boundary shows
its fallback); `none` when the block is not rendered. -/
def resultsBlock (h : Host) (s : ViewState) : Option (Option InvoiceView × Option RiskView) :=
  if s.results.truthy then
    some (InvoiceResults h (s.results.field "invoice_data"),
      RiskAssessment h (s.results.field "risk_assessment"))
  else none

/-! ## InvoiceResults: the totals on screen -/

/-- The constant `confidenceScore` (line 50):
`assessment?.confidence_score || 0`. -/
def confidenceScore (assessment : JSValue) : JSValue :=
  (assessment.field "confidence_score").or (.number 0)

/-- The callback `onDrop` (lines 7-11). The effect of calling `onUpload` is a
function on the state of the caller. -/
def onDrop {File σ : Type} (onUpload : File → σ → σ) (acceptedFiles : List File) (st : σ) : σ :=
  if hlen : 0 < acceptedFiles.length then
    onUpload (acceptedFiles.get ⟨0, hlen⟩) st
  else st

/-- An `onUpload` that records the file of each invocation, in order. -/
def recordUpload {File : Type} (file : File) (calls : List File) : List File :=
  calls ++ [file]

/-! ## InvoiceProcessor: two uploads in flight -/

/-- The setter calls of two uploads that are both started before either
settles. Each upload makes its opening calls when it starts (lines 44-46) and
its settling calls in one uninterrupted continuation once its request has
settled (lines 62-78, after the last `await`); `first` is the outcome of the
upload that settles first, `last` of the one that settles last. -/
def racingCalls (h : Host) (first last : FetchOutcome) : List SetCall :=
  openingCalls ++ openingCalls ++ settlingCalls h first ++ settlingCalls h last

/-- The state once both uploads have settled. -/
def racingUploads (h : Host) (s : ViewState) (first last : FetchOutcome) : ViewState :=
  (racingCalls h first last).foldl ViewState.apply s

/-! ## The properties as the specification words them -/

/-- The severity styling as the specification words it, for every value. -/
def specRiskColor (level : JSValue) : String :=
  match level with
  | .string s =>
    if toLowerCase s = "high" then "error"
    else if toLowerCase s = "medium" then "warning"
    else "success"
  | _ => "success"

/-! ## The parts of the Results View as total functions -/

/-- A payload with an (empty) invoice record and an (empty) risk assessment. -/
def sampleData : JSValue :=
  .object [("invoice_data", .object []), ("risk_assessment", .object [])]

/-- The body `{"success": true, "data": sampleData}`. -/
def sampleSuccess : JSValue :=
  .object [("success", .bool true), ("data", sampleData)]

/-- The body `{"success": true, "data": {"invoice_data": ""}}`. -/
def emptyInvoiceBody : JSValue :=
  .object [("success", .bool true), ("data", .object [("invoice_data", .string "")])]

/-- The body `{"success": false, "error": ""}`. -/
def emptyErrorBody : JSValue :=
  .object [("success", .bool false), ("error", .string "")]

/-- The body `{"success": false, "error": "Unsupported file"}`. -/
def failureBody : JSValue :=
  .object [("success", .bool false), ("error", .string "Unsupported file")]

/-- The body `{"success": true}`. -/
def noDataBody : JSValue :=
  .object [("success", .bool true)]

/-! ## Lemmas on the orchestrator -/

theorem toStringJS_string (h : Host) (m : String) : toStringJS h (.string m) = m := by
  simp [toStringJS]

theorem newError_string (h : Host) (m : String) : newError h (.string m) = ⟨.string m⟩ := by
  simp [newError, toStringJS]

theorem handleFileUpload_ok {h : Host} {o : FetchOutcome} {d : JSValue} (s : ViewState)
    (ht : tryBlock h o = .ok d) : handleFileUpload h s o = ⟨false, .null, d⟩ := by
  simp [handleFileUpload, handleFileUploadCalls, openingCalls, settlingCalls, ht,
    ViewState.apply]

theorem handleFileUpload_error {h : Host} {o : FetchOutcome} {e : JSError} (s : ViewState)
    (ht : tryBlock h o = .error e) : handleFileUpload h s o = ⟨false, e.message, .null⟩ := by
  simp [handleFileUpload, handleFileUploadCalls, openingCalls, settlingCalls, ht,
    ViewState.apply]

theorem uploadTrace_ok {h : Host} {o : FetchOutcome} {d : JSValue} (s : ViewState)
    (ht : tryBlock h o = .ok d) :
    uploadTrace h s o =
      [s, ⟨true, s.error, s.results⟩, ⟨true, .null, s.results⟩, ⟨true, .null, .null⟩,
        ⟨true, .null, d⟩, ⟨false, .null, d⟩] := by
  simp [uploadTrace, handleFileUploadCalls, openingCalls, settlingCalls, ht,
    ViewState.apply, List.scanl]

theorem uploadTrace_error {h : Host} {o : FetchOutcome} {e : JSError} (s : ViewState)
    (ht : tryBlock h o = .error e) :
    uploadTrace h s o =
      [s, ⟨true, s.error, s.results⟩, ⟨true, .null, s.results⟩, ⟨true, .null, .null⟩,
        ⟨true, e.message, .null⟩, ⟨false, e.message, .null⟩] := by
  simp [uploadTrace, handleFileUploadCalls, openingCalls, settlingCalls, ht,
    ViewState.apply, List.scanl]

theorem getProp?_of_truthy {v : JSValue} (hv : v.truthy = true) (key : String) :
    v.getProp? key = some (v.field key) := by
  cases v <;> simp_all [JSValue.truthy, JSValue.getProp?, JSValue.field]

theorem getProp?_of_some {v x : JSValue} {key : String} (hv : v.getProp? key = some x)
    (key' : String) : v.getProp? key' = some (v.field key') := by
  cases v <;> simp_all [JSValue.getProp?, JSValue.field]

theorem or_ne_undefined (a : JSValue) (m : String) : a.or (.string m) ≠ .undefined := by
  cases a <;> simp [JSValue.or, JSValue.truthy] <;> split <;> simp

theorem newError_message (h : Host) (v : JSValue) (hv : v ≠ .undefined) :
    newError h v = ⟨.string (toStringJS h v)⟩ := by
  cases v <;> simp_all [newError]

/-- The try block on a parsed body whose `success` can be read. -/
theorem tryBlock_parsed (h : Host) (status : Nat) (result sv : JSValue)
    (hs : result.getProp? "success" = some sv) :
    tryBlock h (.parsed status result) =
      if status = 200 ∧ sv.truthy = true then
        if ((result.field "data").and ((result.field "data").field "invoice_data")).truthy = true then
          .ok (result.field "data")
        else .error ⟨.string "Invalid response: missing invoice data"⟩
      else
        .error ⟨.string (toStringJS h ((result.field "error").or
          (.string "Failed to process invoice")))⟩ := by
  have hd := getProp?_of_some hs "data"
  have he := getProp?_of_some hs "error"
  have hne := newError_message h _ (or_ne_undefined (result.field "error") "Failed to process invoice")
  by_cases h200 : status = 200
  · by_cases hsv : sv.truthy = true
    · by_cases hdt : (result.field "data").truthy = true
      · have hi := getProp?_of_truthy hdt "invoice_data"
        by_cases hit : ((result.field "data").field "invoice_data").truthy = true
        · simp [tryBlock, readProp, hs, hd, hi, h200, hsv, hdt, hit, JSValue.and, bind, Except.bind, pure, Except.pure]
        · simp [tryBlock, readProp, hs, hd, hi, h200, hsv, hdt, hit, JSValue.and, bind, Except.bind, pure, Except.pure, throw, throwThe, MonadExceptOf.throw, newError_string]
      · simp [tryBlock, readProp, hs, hd, h200, hsv, hdt, JSValue.and, bind, Except.bind, pure, Except.pure, throw, throwThe, MonadExceptOf.throw, newError_string]
    · simp [tryBlock, readProp, hs, he, h200, hsv, hne, bind, Except.bind, pure, Except.pure, throw, throwThe, MonadExceptOf.throw]
  · simp [tryBlock, readProp, he, h200, hne, bind, Except.bind, pure, Except.pure, throw, throwThe, MonadExceptOf.throw]

/-- Between uploads `loading` is false and `error` and `results` are not both
truthy. -/
theorem settled_inv {h : Host} {s : ViewState} (hs : Settled h s) :
    s.loading = false ∧ (s.error.truthy && s.results.truthy) = false := by
  cases hs with
  | init => simp [initialState, JSValue.truthy]
  | upload o _ =>
    cases ht : tryBlock h o with
    | ok d => simp [handleFileUpload_ok _ ht, JSValue.truthy]
    | error e => simp [handleFileUpload_error _ ht, JSValue.truthy]

theorem sampleSuccess_tryBlock (h : Host) :
    tryBlock h (.parsed 200 sampleSuccess) = .ok sampleData := by
  rw [tryBlock_parsed h 200 sampleSuccess (.bool true) (by rfl)]
  simp [sampleSuccess, sampleData, JSValue.field, JSValue.getProp?, JSValue.ownField,
    JSValue.and, JSValue.truthy, List.lookup]

/-! ## C1: the state triple -/

/-- C1 as stated fails: on a successful response the call `setResults(data)`
(line 66) precedes `setLoading(false)` (line 77), so the fifth state of the
upload has `loading` and `results` both truthy. -/
theorem C1_counterexample :
    uploadTrace demoHost initialState (.parsed 200 sampleSuccess) =
      [⟨false, .null, .null⟩, ⟨true, .null, .null⟩, ⟨true, .null, .null⟩,
        ⟨true, .null, .null⟩, ⟨true, .null, sampleData⟩, ⟨false, .null, sampleData⟩] ∧
    truthyCount ⟨true, .null, sampleData⟩ = 2 := by
  refine ⟨?_, ?_⟩
  · rw [uploadTrace_ok _ (sampleSuccess_tryBlock demoHost)]
    simp [initialState]
  · simp [truthyCount, sampleData, JSValue.truthy]

/-- C1, amended: in every state reached at a setter call of an upload (uploads
made one after the other from the initial state, whatever their outcomes)
`error` and `results` are not both truthy; in every state between uploads at
most one of `loading`, `error`, `results` is truthy; and in the state in which
the request is awaited exactly one is (`loading`). -/
theorem C1_reachable_states (h : Host) (s : ViewState) (hr : Reachable h s) :
    (s.error.truthy && s.results.truthy) = false ∧
    (Settled h s → truthyCount s ≤ 1) ∧
    truthyCount (pendingState s) = 1 := by
  refine ⟨?_, ?_, ?_⟩
  · obtain ⟨s₀, o, hs₀, hmem⟩ := hr
    have hinv := (settled_inv hs₀).2
    cases ht : tryBlock h o with
    | ok d =>
      rw [uploadTrace_ok _ ht] at hmem
      simp only [List.mem_cons, List.mem_singleton, List.not_mem_nil, or_false] at hmem
      rcases hmem with rfl | rfl | rfl | rfl | rfl | rfl <;> simp_all [JSValue.truthy]
    | error e =>
      rw [uploadTrace_error _ ht] at hmem
      simp only [List.mem_cons, List.mem_singleton, List.not_mem_nil, or_false] at hmem
      rcases hmem with rfl | rfl | rfl | rfl | rfl | rfl <;> simp_all [JSValue.truthy]
  · intro hs
    obtain ⟨hl, hb⟩ := settled_inv hs
    simp only [truthyCount, hl]
    cases he : s.error.truthy <;> cases hres : s.results.truthy <;> simp_all
  · simp [pendingState, openingCalls, ViewState.apply, truthyCount, JSValue.truthy]

/-- C1, amended, at the state `(true, null, data)` of a successful upload. -/
theorem C1_reachable_states_witness :
    Reachable demoHost ⟨true, .null, sampleData⟩ ∧
    ((JSValue.null.truthy && sampleData.truthy) = false ∧
      (Settled demoHost ⟨true, .null, sampleData⟩ → truthyCount ⟨true, .null, sampleData⟩ ≤ 1) ∧
      truthyCount (pendingState ⟨true, .null, sampleData⟩) = 1) :=
  have hr : Reachable demoHost ⟨true, .null, sampleData⟩ :=
    ⟨initialState, .parsed 200 sampleSuccess, Settled.init, by
      rw [uploadTrace_ok _ (sampleSuccess_tryBlock demoHost)]; simp⟩
  ⟨hr, C1_reachable_states demoHost _ hr⟩

/-! ## C2: the successful response -/

/-- C2 as stated fails: in `{"success": true, "data": {"invoice_data": ""}}`
with status 200 the data object has its `invoice_data` field, yet the test
`data && data.invoice_data` (line 64) is falsy and the upload ends with the
error of line 68 and no results. -/
theorem C2_counterexample :
    (JSValue.object [("invoice_data", .string "")]).has "invoice_data" = true ∧
    emptyInvoiceBody.field "data" = .object [("invoice_data", .string "")] ∧
    handleFileUpload demoHost initialState (.parsed 200 emptyInvoiceBody) =
      ⟨false, .string "Invalid response: missing invoice data", .null⟩ := by
  refine ⟨by simp [JSValue.has, List.lookup], by
    simp [emptyInvoiceBody, JSValue.field, JSValue.getProp?, JSValue.ownField, List.lookup], ?_⟩
  apply handleFileUpload_error
  rw [tryBlock_parsed demoHost 200 emptyInvoiceBody (.bool true) (by rfl)]
  simp [emptyInvoiceBody, JSValue.field, JSValue.getProp?, JSValue.ownField,
    JSValue.and, JSValue.truthy, List.lookup]

/-- C2, amended: for every response with status 200, a truthy `success` and a
`data` whose `invoice_data` is truthy, the upload ends, from any state, with
`results` the received `data` itself, `error` null and `loading` false, and
the results block hands `data.invoice_data` to the Results View and
`data.risk_assessment` to the Risk View. -/
theorem C2_success_stores_data (h : Host) (s : ViewState) (result sv : JSValue)
    (hs : result.getProp? "success" = some sv) (hsv : sv.truthy = true)
    (hinv : ((result.field "data").field "invoice_data").truthy = true) :
    handleFileUpload h s (.parsed 200 result) = ⟨false, .null, result.field "data"⟩ ∧
    resultsBlock h (handleFileUpload h s (.parsed 200 result)) =
      some (InvoiceResults h ((result.field "data").field "invoice_data"),
        RiskAssessment h ((result.field "data").field "risk_assessment")) := by
  have hd : (result.field "data").truthy = true := by
    cases hdv : result.field "data" <;>
      simp_all [JSValue.field, JSValue.getProp?, JSValue.truthy]
  have ht : tryBlock h (.parsed 200 result) = .ok (result.field "data") := by
    rw [tryBlock_parsed h 200 result sv hs]
    simp [hsv, JSValue.and, hd, hinv]
  rw [handleFileUpload_ok _ ht]
  simp [resultsBlock, hd]

/-- C2, amended, at the body `{"success": true, "data": sampleData}`. -/
theorem C2_success_stores_data_witness :
    handleFileUpload demoHost initialState (.parsed 200 sampleSuccess) =
      ⟨false, .null, sampleSuccess.field "data"⟩ ∧
    resultsBlock demoHost (handleFileUpload demoHost initialState (.parsed 200 sampleSuccess)) =
      some (InvoiceResults demoHost ((sampleSuccess.field "data").field "invoice_data"),
        RiskAssessment demoHost ((sampleSuccess.field "data").field "risk_assessment")) :=
  C2_success_stores_data demoHost initialState sampleSuccess (.bool true) (by rfl) (by rfl)
    (by simp [sampleSuccess, sampleData, JSValue.field, JSValue.getProp?, JSValue.ownField,
      JSValue.truthy, List.lookup])

/-! ## C3: the failure response -/

/-- C3 as stated fails: in `{"success": false, "error": ""}` the `error` field
is present, yet `result.error || ...` (line 71) takes the fallback, so the
error state is the fallback and not the field. -/
theorem C3_counterexample :
    emptyErrorBody.has "error" = true ∧
    emptyErrorBody.field "error" = .string "" ∧
    handleFileUpload demoHost initialState (.parsed 200 emptyErrorBody) =
      ⟨false, .string "Failed to process invoice", .null⟩ ∧
    "Failed to process invoice" ≠ "" := by
  refine ⟨by simp [emptyErrorBody, JSValue.has, List.lookup], by
    simp [emptyErrorBody, JSValue.field, JSValue.getProp?, JSValue.ownField, List.lookup],
    ?_, by decide⟩
  apply handleFileUpload_error
  rw [tryBlock_parsed demoHost 200 emptyErrorBody (.bool false) (by rfl)]
  simp [emptyErrorBody, JSValue.field, JSValue.getProp?, JSValue.ownField,
    JSValue.or, JSValue.truthy, List.lookup, toStringJS]

/-- C3, amended: for every parsed response whose `success` is falsy, whatever
the status, the upload ends with `results` null and `loading` false, and the
error state is the `error` field when that field is a non-empty string, and
the fallback `Failed to process invoice` when the field is absent or falsy. -/
theorem C3_failure_message (h : Host) (s : ViewState) (status : Nat) (result sv : JSValue)
    (hs : result.getProp? "success" = some sv) (hsv : sv.truthy = false) :
    (handleFileUpload h s (.parsed status result)).results = .null ∧
    (handleFileUpload h s (.parsed status result)).loading = false ∧
    (∀ m, result.field "error" = .string m → m ≠ "" →
      (handleFileUpload h s (.parsed status result)).error = .string m) ∧
    ((result.field "error").truthy = false →
      (handleFileUpload h s (.parsed status result)).error =
        .string "Failed to process invoice") := by
  have ht : tryBlock h (.parsed status result) = .error ⟨.string (toStringJS h
      ((result.field "error").or (.string "Failed to process invoice")))⟩ := by
    rw [tryBlock_parsed h status result sv hs]
    simp [hsv]
  rw [handleFileUpload_error _ ht]
  refine ⟨rfl, rfl, ?_, ?_⟩
  · intro m hm hne
    simp [hm, JSValue.or, JSValue.truthy, hne, toStringJS]
  · intro hfa
    simp [JSValue.or, hfa, toStringJS]

/-- C3, amended, at the body `{"success": false, "error": "Unsupported file"}`
with status 400. -/
theorem C3_failure_message_witness :
    (handleFileUpload demoHost initialState (.parsed 400 failureBody)).error =
      .string "Unsupported file" :=
  (C3_failure_message demoHost initialState 400 failureBody (.bool false) (by rfl) (by rfl)).2.2.1
    "Unsupported file"
    (by simp [failureBody, JSValue.field, JSValue.getProp?, JSValue.ownField, List.lookup])
    (by decide)

/-! ## C4: the response without invoice data -/

/-- C4: for every response with status 200 and a truthy `success` whose `data`
is missing or whose `data.invoice_data` is missing (absent, or any other falsy
value), the upload ends with the error
`Invalid response: missing invoice data`, `results` null and `loading` false,
so the banner is shown and the results block (Results View and Risk View) is
not rendered. -/
theorem C4_missing_invoice_data (h : Host) (s : ViewState) (result sv : JSValue)
    (hs : result.getProp? "success" = some sv) (hsv : sv.truthy = true)
    (hmiss : (result.field "data").truthy = false ∨
      ((result.field "data").field "invoice_data").truthy = false) :
    handleFileUpload h s (.parsed 200 result) =
      ⟨false, .string "Invalid response: missing invoice data", .null⟩ ∧
    showsBanner (handleFileUpload h s (.parsed 200 result)) = true ∧
    showsResults (handleFileUpload h s (.parsed 200 result)) = false ∧
    resultsBlock h (handleFileUpload h s (.parsed 200 result)) = none := by
  have ht : tryBlock h (.parsed 200 result) =
      .error ⟨.string "Invalid response: missing invoice data"⟩ := by
    rw [tryBlock_parsed h 200 result sv hs]
    have : ((result.field "data").and ((result.field "data").field "invoice_data")).truthy
        = false := by
      unfold JSValue.and
      rcases hmiss with hm | hm
      · simp [hm]
      · by_cases hd : (result.field "data").truthy = true
        · simp [hd, hm]
        · simp [hd]
    simp [hsv, this]
  rw [handleFileUpload_error _ ht]
  simp [showsBanner, showsResults, resultsBlock, JSValue.truthy]

/-- C4 at the body `{"success": true}`, where `data` is absent. -/
theorem C4_missing_invoice_data_witness :
    noDataBody.field "data" = .undefined ∧
    handleFileUpload demoHost initialState (.parsed 200 noDataBody) =
      ⟨false, .string "Invalid response: missing invoice data", .null⟩ :=
  ⟨by simp [noDataBody, JSValue.field, JSValue.getProp?, JSValue.ownField, List.lookup],
    (C4_missing_invoice_data demoHost initialState noDataBody (.bool true) (by rfl) (by rfl)
      (Or.inl (by simp [noDataBody, JSValue.field, JSValue.getProp?, JSValue.ownField,
        JSValue.truthy, List.lookup]))).1⟩

/-! ## C5: every outcome settles -/

theorem nullish_of_truthy {v : JSValue} (hv : v.truthy = true) : v.nullish = false := by
  cases v <;> simp_all [JSValue.nullish, JSValue.truthy]

theorem itemRow_nullish (h : Host) {item : JSValue} (hi : item.nullish = true) :
    itemRow h item = none := by
  cases item <;> simp_all [JSValue.nullish, itemRow, JSValue.getProp?]

theorem or_of_truthy {a : JSValue} (ha : a.truthy = true) (b : JSValue) : a.or b = a := by
  simp [JSValue.or, ha]

theorem or_of_falsy {a : JSValue} (ha : a.truthy = false) (b : JSValue) : a.or b = b := by
  simp [JSValue.or, ha]

theorem getRiskColor_string (s : String) (hs : s ≠ "") :
    getRiskColor (.string s) = some (specRiskColor (.string s)) := by
  simp [getRiskColor, JSValue.or, JSValue.truthy, hs, callToLowerCase, specRiskColor]

theorem getRiskColor_falsy {level : JSValue} (hl : level.truthy = false) :
    getRiskColor level = some "success" := by
  simp only [getRiskColor, or_of_falsy hl, callToLowerCase]
  decide

/-- C9 as stated fails: the risk level 5, which a JSON body can carry, is
truthy and has no method `toLowerCase`, so `getRiskColor` (line 35) throws
instead of returning the low styling; so does the Risk View on
`{"risk_level": 5}`. -/
theorem C9_counterexample :
    getRiskColor (.number 5) = none ∧ specRiskColor (.number 5) = "success" ∧
    RiskAssessment demoHost (.object [("risk_level", .number 5)]) = none := by
  refine ⟨?_, rfl, ?_⟩
  · simp [getRiskColor, JSValue.or, JSValue.truthy, callToLowerCase]
  · simp [RiskAssessment, JSValue.field, JSValue.getProp?, JSValue.ownField, List.lookup,
      JSValue.or, JSValue.truthy, callToUpperCase]

/-- C9, amended: for every risk level that is a string, `getRiskColor` returns
`error` when the level equals `high` ignoring case, `warning` when it equals
`medium` ignoring case, and `success` otherwise (the empty string included);
for every falsy level (absent, null, false, 0, the empty string) it returns
`success`; and it throws exactly for the levels that are truthy and not a
string (a non-zero number, true, an array, an object). -/
theorem C9_risk_color (level : JSValue) :
    (∀ s, level = .string s → getRiskColor level = some
      (if toLowerCase s = "high" then "error"
        else if toLowerCase s = "medium" then "warning" else "success")) ∧
    (level.truthy = false → getRiskColor level = some "success") ∧
    (getRiskColor level = none ↔ level.truthy = true ∧ ∀ s, level ≠ .string s) ∧
    (getRiskColor level ≠ none → getRiskColor level = some (specRiskColor level)) := by
  refine ⟨?_, getRiskColor_falsy, ?_, ?_⟩
  · rintro s rfl
    by_cases hs : s = ""
    · subst hs
      rw [getRiskColor_falsy (by simp [JSValue.truthy])]
      decide
    · rw [getRiskColor_string s hs, specRiskColor]
  · cases level with
    | string s =>
      by_cases hs : s = ""
      · subst hs; simp [getRiskColor_falsy, JSValue.truthy]
      · simp [getRiskColor_string s hs]
    | number q =>
      by_cases hq : q = 0
      · simp [getRiskColor_falsy, JSValue.truthy, hq]
      · simp [getRiskColor, JSValue.or, JSValue.truthy, hq, callToLowerCase]
    | bool b =>
      cases b
      · simp [getRiskColor_falsy, JSValue.truthy]
      · simp [getRiskColor, JSValue.or, JSValue.truthy, callToLowerCase]
    | undefined => simp [getRiskColor_falsy, JSValue.truthy]
    | null => simp [getRiskColor_falsy, JSValue.truthy]
    | nan => simp [getRiskColor_falsy, JSValue.truthy]
    | array items => simp [getRiskColor, JSValue.or, JSValue.truthy, callToLowerCase]
    | object fields => simp [getRiskColor, JSValue.or, JSValue.truthy, callToLowerCase]
  · intro hne
    cases level with
    | string s =>
      by_cases hs : s = ""
      · subst hs
        rw [getRiskColor_falsy (by simp [JSValue.truthy])]
        decide
      · exact getRiskColor_string s hs
    | number q =>
      by_cases hq : q = 0
      · rw [getRiskColor_falsy (by simp [JSValue.truthy, hq])]; rfl
      · simp [getRiskColor, JSValue.or, JSValue.truthy, hq, callToLowerCase] at hne
    | bool b =>
      cases b
      · rw [getRiskColor_falsy (by simp [JSValue.truthy])]; rfl
      · simp [getRiskColor, JSValue.or, JSValue.truthy, callToLowerCase] at hne
    | undefined => rw [getRiskColor_falsy (by simp [JSValue.truthy])]; rfl
    | null => rw [getRiskColor_falsy (by simp [JSValue.truthy])]; rfl
    | nan => rw [getRiskColor_falsy (by simp [JSValue.truthy])]; rfl
    | array items => simp [getRiskColor, JSValue.or, JSValue.truthy, callToLowerCase] at hne
    | object fields => simp [getRiskColor, JSValue.or, JSValue.truthy, callToLowerCase] at hne

/-- C9, amended, at the levels `HiGh`, `Medium` and `critical`. -/
theorem C9_risk_color_witness :
    getRiskColor (.string "HiGh") = some "error" ∧
    getRiskColor (.string "Medium") = some "warning" ∧
    getRiskColor (.string "critical") = some "success" :=
  ⟨((C9_risk_color (.string "HiGh")).1 "HiGh" rfl).trans (by decide),
    ((C9_risk_color (.string "Medium")).1 "Medium" rfl).trans (by decide),
    ((C9_risk_color (.string "critical")).1 "critical" rfl).trans (by decide)⟩

/-! ## C10: the findings list -/

/-- C11: for every drop event, `onDrop` invokes `onUpload` exactly once, with
the first accepted file, when the list of accepted files is non-empty, and
not at all when it is empty: the recorded invocations are the first accepted
file alone, or none, and for any `onUpload` the effect of `onDrop` is the
effect of that one call, or no effect. -/
theorem C11_onDrop_calls {File : Type} (acceptedFiles : List File) :
    onDrop recordUpload acceptedFiles [] = acceptedFiles.head?.toList ∧
    (∀ file rest, acceptedFiles = file :: rest →
      onDrop recordUpload acceptedFiles [] = [file] ∧
      ∀ (σ : Type) (onUpload : File → σ → σ) (st : σ),
        onDrop onUpload acceptedFiles st = onUpload file st) ∧
    (acceptedFiles = [] →
      onDrop recordUpload acceptedFiles [] = [] ∧
      ∀ (σ : Type) (onUpload : File → σ → σ) (st : σ),
        onDrop onUpload acceptedFiles st = st) := by
  cases acceptedFiles with
  | nil => simp [onDrop]
  | cons file rest => simp [onDrop, recordUpload]

/-- C11 at a drop of two accepted files and at a drop of none. -/
theorem C11_onDrop_calls_witness :
    onDrop recordUpload ["invoice.pdf", "scan.png"] [] = ["invoice.pdf"] ∧
    onDrop recordUpload ([] : List String) [] = [] :=
  ⟨((C11_onDrop_calls ["invoice.pdf", "scan.png"]).2.1 "invoice.pdf" ["scan.png"] rfl).1,
    ((C11_onDrop_calls ([] : List String)).2.2 rfl).1⟩

/-! ## C13: the confidence text -/

theorem racingUploads_eq (h : Host) (s : ViewState) (first last : FetchOutcome) :
    racingUploads h s first last =
      (settlingCalls h last).foldl ViewState.apply
        ((settlingCalls h first).foldl ViewState.apply ⟨true, .null, .null⟩) := by
  simp [racingUploads, racingCalls, openingCalls, ViewState.apply, List.foldl_append]

/-- C14 as stated fails: when the upload that settles first succeeds and the
one that settles last fails, the last one calls `setError` and
`setLoading(false)` only (lines 75-77), so the `results` of the first upload
stay: the final state has both an error and results, and is not the state the
last upload produces on its own. -/
theorem C14_counterexample :
    racingUploads demoHost initialState (.parsed 200 sampleSuccess) (.parsed 400 failureBody) =
      ⟨false, .string "Unsupported file", sampleData⟩ ∧
    handleFileUpload demoHost initialState (.parsed 400 failureBody) =
      ⟨false, .string "Unsupported file", .null⟩ ∧
    sampleData ≠ .null ∧
    truthyCount ⟨false, .string "Unsupported file", sampleData⟩ = 2 := by
  have hlast : tryBlock demoHost (.parsed 400 failureBody) =
      .error ⟨.string "Unsupported file"⟩ := by
    rw [tryBlock_parsed demoHost 400 failureBody (.bool false) (by rfl)]
    simp [failureBody, JSValue.field, JSValue.getProp?, JSValue.ownField, JSValue.or,
      JSValue.truthy, List.lookup, toStringJS]
  refine ⟨?_, handleFileUpload_error _ hlast, by simp [sampleData], ?_⟩
  · rw [racingUploads_eq]
    simp [settlingCalls, sampleSuccess_tryBlock, hlast, ViewState.apply]
  · simp [truthyCount, sampleData, JSValue.truthy]

/-- C14, amended: when two uploads are both started before either settles,
the final state has `loading` false, and each of `error` and `results` holds
what the last upload to set it left there. When both uploads succeed or both
fail, the final state is the one the last-settling upload produces on its
own. When one succeeds and the other fails, whatever the order, `results`
holds the data of the one that succeeded and `error` the message of the one
that failed. -/
theorem C14_racing_uploads (h : Host) (s : ViewState) (first last : FetchOutcome) :
    (racingUploads h s first last).loading = false ∧
    (∀ d d', tryBlock h first = .ok d → tryBlock h last = .ok d' →
      racingUploads h s first last = ⟨false, .null, d'⟩ ∧
      racingUploads h s first last = handleFileUpload h s last) ∧
    (∀ e e', tryBlock h first = .error e → tryBlock h last = .error e' →
      racingUploads h s first last = ⟨false, e'.message, .null⟩ ∧
      racingUploads h s first last = handleFileUpload h s last) ∧
    (∀ d e, tryBlock h first = .ok d → tryBlock h last = .error e →
      racingUploads h s first last = ⟨false, e.message, d⟩) ∧
    (∀ e d, tryBlock h first = .error e → tryBlock h last = .ok d →
      racingUploads h s first last = ⟨false, e.message, d⟩) := by
  rw [racingUploads_eq]
  refine ⟨?_, ?_, ?_, ?_, ?_⟩
  · cases hf : tryBlock h first <;> cases hl : tryBlock h last <;>
      simp [settlingCalls, hf, hl, ViewState.apply]
  · intro d d' hf hl
    simp [settlingCalls, hf, hl, ViewState.apply, handleFileUpload_ok s hl]
  · intro e e' hf hl
    simp [settlingCalls, hf, hl, ViewState.apply, handleFileUpload_error s hl]
  · intro d e hf hl
    simp [settlingCalls, hf, hl, ViewState.apply]
  · intro e d hf hl
    simp [settlingCalls, hf, hl, ViewState.apply]

/-- C14, amended, at a failure that settles first and a success that settles
last: the error of the first upload stays next to the results of the last. -/
theorem C14_racing_uploads_witness :
    racingUploads demoHost initialState (.fetchRejected ⟨.string "Failed to fetch"⟩)
      (.parsed 200 sampleSuccess) = ⟨false, .string "Failed to fetch", sampleData⟩ :=
  (C14_racing_uploads demoHost initialState (.fetchRejected ⟨.string "Failed to fetch"⟩)
    (.parsed 200 sampleSuccess)).2.2.2.2 ⟨.string "Failed to fetch"⟩ sampleData rfl
    (sampleSuccess_tryBlock demoHost)

end FinGuard
